import Mathlib

/-!
Verification development for the dex-trader repository.

The JavaScript sources are shallowly embedded in Lean 4:

* JS floating-point numbers are modelled as exact rationals; the repository
  itself documents that its arithmetic is comparative, not settlement-grade,
  and none of the verified properties depends on float rounding.  Where the
  IEEE special value Infinity is observable (the reciprocal price), the
  embedding uses an explicit type with an Infinity constructor.
* JS objects returned by the arbitrage analyzer come in several shapes;
  fields that are present only on some shapes are modelled as Option fields.
* Stateful classes (AIAgent, SmartErrorHandler) are modelled by explicit
  state passing; the async retry loop is modelled as a pure function from a
  per-attempt outcome sequence to a trace of attempts, awaited delays and the
  final result.  All functions are total, which mirrors the fact that the
  embedded code paths terminate and throw only where modelled.
-/

namespace DexTrader

/-! ### JS string primitives

`jsIncludes` models `String.prototype.includes`, `jsToLower` models
`String.prototype.toLowerCase` (character-wise; the error messages that
reach it are ASCII). -/

/-- Is `needle` a contiguous substring of the second list? -/
def isSubstring (needle : List Char) : List Char → Bool
  | [] => needle.isEmpty
  | c :: rest => needle.isPrefixOf (c :: rest) || isSubstring needle rest

/-- JS `s.includes(sub)`. -/
def jsIncludes (s sub : String) : Bool :=
  isSubstring sub.data s.data

/-- JS `s.toLowerCase()` restricted to ASCII, mapped character-wise. -/
def jsToLower (s : String) : String :=
  ⟨s.data.map Char.toLower⟩

/-! ### Constants from src/config.js -/

/-- `ARBITRAGE_CONFIG.MIN_PRICE_DIFF_PERCENT` (0.1). -/
def MIN_PRICE_DIFF_PERCENT : ℚ := 1/10

/-- `ARBITRAGE_CONFIG.SLIPPAGE_TOLERANCE_PERCENT` (0.5). -/
def SLIPPAGE_TOLERANCE_PERCENT : ℚ := 1/2

/-- `GAS_CONFIG.MIN_PROFIT_THRESHOLD_USD` (1.0). -/
def MIN_PROFIT_THRESHOLD_USD : ℚ := 1

/-! ### Data model of src/arbitrage.js -/

/-- A raw per-DEX price record as consumed by `analyzeArbitrage`.
`priceToken0InToken1 = none` models an absent (`undefined`) field and
`error = none` an absent error field. -/
structure PriceData where
  dex : String
  priceToken0InToken1 : Option ℚ
  error : Option String
  liquidity : Option String
deriving DecidableEq

/-- A price record that has passed the validity filter, with its price
forced to be present. -/
structure VQuote where
  dex : String
  price : ℚ
  liquidity : Option String
deriving DecidableEq

/-- JS truthiness of an optional string (absent and empty are falsy). -/
def isTruthyStr : Option String → Bool
  | none => false
  | some s => !s.isEmpty

/-- The filter `prices.filter(p => !p.error && p.priceToken0InToken1)` from
`analyzeArbitrage`: a record is kept when its error field is falsy and its
price field is truthy (present and nonzero). -/
def validPrices (prices : List PriceData) : List VQuote :=
  prices.filterMap fun p =>
    match p.priceToken0InToken1 with
    | none => none
    | some q => if isTruthyStr p.error || q = 0 then none
                else some ⟨p.dex, q, p.liquidity⟩

/-- `calculatePriceDifference` from src/arbitrage.js: percentage difference
relative to the average of the two prices, 0 when either price is 0. -/
def calculatePriceDifference (price1 price2 : ℚ) : ℚ :=
  if price1 = 0 ∨ price2 = 0 then 0
  else (|price1 - price2| / ((price1 + price2) / 2)) * 100

/-- Result of `determineArbitrageDirection`. -/
structure Direction where
  buyFrom : String
  buyPrice : ℚ
  sellTo : String
  sellPrice : ℚ
  priceDiffPercent : ℚ
deriving DecidableEq

/-- `determineArbitrageDirection` from src/arbitrage.js.  The `baseToken`
argument is unused by the source as well. -/
def determineArbitrageDirection (priceData1 priceData2 : VQuote)
    (_baseToken : String) : Direction :=
  if priceData1.price < priceData2.price then
    ⟨priceData1.dex, priceData1.price, priceData2.dex, priceData2.price,
      calculatePriceDifference priceData1.price priceData2.price⟩
  else
    ⟨priceData2.dex, priceData2.price, priceData1.dex, priceData1.price,
      calculatePriceDifference priceData1.price priceData2.price⟩

/-- Result of `calculatePotentialProfit`. -/
structure ProfitCalc where
  tradeAmount : ℚ
  costToBuy : ℚ
  revenueFromSell : ℚ
  grossProfitQuote : ℚ
  profitPercent : ℚ
  effectiveBuyPrice : ℚ
  effectiveSellPrice : ℚ
deriving DecidableEq

/-- `calculatePotentialProfit` from src/arbitrage.js.  The JS default for
`slippagePercent` is `ARBITRAGE_CONFIG.SLIPPAGE_TOLERANCE_PERCENT`; callers
below pass it explicitly. -/
def calculatePotentialProfit (buyPrice sellPrice tradeAmount slippagePercent : ℚ) :
    ProfitCalc :=
  let effectiveBuyPrice := buyPrice * (1 + slippagePercent / 100)
  let effectiveSellPrice := sellPrice * (1 - slippagePercent / 100)
  let costToBuy := tradeAmount * effectiveBuyPrice
  let revenueFromSell := tradeAmount * effectiveSellPrice
  let grossProfitQuote := revenueFromSell - costToBuy
  let profitPercent := (grossProfitQuote / costToBuy) * 100
  ⟨tradeAmount, costToBuy, revenueFromSell, grossProfitQuote, profitPercent,
    effectiveBuyPrice, effectiveSellPrice⟩

/-- Result of `calculateNetProfit`. -/
structure NetProfitCalc where
  grossProfitUsd : ℚ
  totalGasCostUsd : ℚ
  netProfitUsd : ℚ
  isProfitable : Bool
  profitAfterGasPercent : ℚ
deriving DecidableEq

/-- `calculateNetProfit` from src/arbitrage.js: two swap legs, so the gas
cost is doubled; profitability compares against the $1 threshold. -/
def calculateNetProfit (grossProfitUsd gasCostUsd : ℚ) : NetProfitCalc :=
  let totalGasCost := gasCostUsd * 2
  let netProfitUsd := grossProfitUsd - totalGasCost
  let isProfitable := decide (MIN_PROFIT_THRESHOLD_USD < netProfitUsd)
  ⟨grossProfitUsd, totalGasCost, netProfitUsd, isProfitable,
    if 0 < grossProfitUsd then (netProfitUsd / grossProfitUsd) * 100 else 0⟩

/-- The three branches of `getRecommendation` (the JS function renders these
as strings; the numeric data interpolated into each string is kept). -/
inductive TradeRec where
  | noTradeBelowThreshold
  | noTradeGasExceedsProfit (totalGasCostUsd grossProfitUsd : ℚ)
  | profitable (netProfitUsd : ℚ)
deriving DecidableEq

/-- `getRecommendation` from src/arbitrage.js. -/
def getRecommendation (netProfitCalc : NetProfitCalc) (priceDiffPercent : ℚ) :
    TradeRec :=
  if priceDiffPercent < MIN_PRICE_DIFF_PERCENT then .noTradeBelowThreshold
  else if !netProfitCalc.isProfitable then
    .noTradeGasExceedsProfit netProfitCalc.totalGasCostUsd netProfitCalc.grossProfitUsd
  else .profitable netProfitCalc.netProfitUsd

/-- The `direction` sub-object of a full analysis result. -/
structure DirectionInfo where
  buyFrom : String
  buyPrice : ℚ
  sellTo : String
  sellPrice : ℚ
deriving DecidableEq

/-- One entry of the `prices` echo list of the same-DEX early return. -/
structure PriceEntry where
  dex : String
  price : ℚ
deriving DecidableEq

/-- One entry of the `allPrices` list of a full analysis result. -/
structure PriceLiqEntry where
  dex : String
  price : ℚ
  liquidity : Option String
deriving DecidableEq

/-- The object returned by `analyzeArbitrage`.  The JS function returns one
of three shapes; fields present only on some shapes are `Option`s (the
wall-clock `timestamp` field is not modelled). -/
structure ArbAnalysis where
  hasOpportunity : Bool
  reason : Option String
  validDexCount : Option ℕ
  prices : Option (List PriceEntry)
  isProfitableAfterGas : Option Bool
  direction : Option DirectionInfo
  priceDiffPercent : Option ℚ
  meetsThreshold : Option Bool
  tradeAmountEth : Option ℚ
  grossProfitUsd : Option ℚ
  gasCostUsd : Option ℚ
  netProfitUsd : Option ℚ
  profitAfterSlippage : Option ℚ
  recommendation : Option TradeRec
  allPrices : Option (List PriceLiqEntry)
deriving DecidableEq

/-- The early return of `analyzeArbitrage` for fewer than two valid prices. -/
def insufficientResult (validDexCount : ℕ) : ArbAnalysis :=
  { hasOpportunity := false
    reason := some "Insufficient valid price data from DEXes"
    validDexCount := some validDexCount
    prices := none, isProfitableAfterGas := none, direction := none
    priceDiffPercent := none, meetsThreshold := none, tradeAmountEth := none
    grossProfitUsd := none, gasCostUsd := none, netProfitUsd := none
    profitAfterSlippage := none, recommendation := none, allPrices := none }

/-- The scan of `analyzeArbitrage` that finds the lowest-price (best buy)
and highest-price (best sell) entries: both trackers start at the first
valid entry and are updated on strict comparisons while iterating over the
whole valid list. -/
def bestPair (p0 : VQuote) (valid : List VQuote) : VQuote × VQuote :=
  valid.foldl
    (fun b p =>
      (if p.price < b.1.price then p else b.1,
       if b.2.price < p.price then p else b.2))
    (p0, p0)

/-- `analyzeArbitrage` from src/arbitrage.js.  A total function: every code
path produces a result object, none throws. -/
def analyzeArbitrage (prices : List PriceData) (tradeAmountEth gasCostUsd : ℚ) :
    ArbAnalysis :=
  match validPrices prices with
  | [] => insufficientResult 0
  | [_] => insufficientResult 1
  | p0 :: p1 :: rest =>
    let valid := p0 :: p1 :: rest
    let best := bestPair p0 valid
    if best.1.dex = best.2.dex then
      { hasOpportunity := false
        reason := some "Best buy and sell prices are from the same DEX"
        prices := some (valid.map fun p => ⟨p.dex, p.price⟩)
        validDexCount := none, isProfitableAfterGas := none, direction := none
        priceDiffPercent := none, meetsThreshold := none, tradeAmountEth := none
        grossProfitUsd := none, gasCostUsd := none, netProfitUsd := none
        profitAfterSlippage := none, recommendation := none, allPrices := none }
    else
      let direction := determineArbitrageDirection best.1 best.2 "WETH"
      let profitCalc := calculatePotentialProfit direction.buyPrice
        direction.sellPrice tradeAmountEth SLIPPAGE_TOLERANCE_PERCENT
      let netProfitCalc := calculateNetProfit profitCalc.grossProfitQuote gasCostUsd
      { hasOpportunity := decide (MIN_PRICE_DIFF_PERCENT ≤ direction.priceDiffPercent)
        reason := none, validDexCount := none, prices := none
        isProfitableAfterGas := some netProfitCalc.isProfitable
        direction := some ⟨direction.buyFrom, direction.buyPrice,
          direction.sellTo, direction.sellPrice⟩
        priceDiffPercent := some direction.priceDiffPercent
        meetsThreshold := some (decide (MIN_PRICE_DIFF_PERCENT ≤ direction.priceDiffPercent))
        tradeAmountEth := some tradeAmountEth
        grossProfitUsd := some profitCalc.grossProfitQuote
        gasCostUsd := some netProfitCalc.totalGasCostUsd
        netProfitUsd := some netProfitCalc.netProfitUsd
        profitAfterSlippage := some profitCalc.profitPercent
        recommendation := some (getRecommendation netProfitCalc direction.priceDiffPercent)
        allPrices := some (valid.map fun p => ⟨p.dex, p.price, p.liquidity⟩) }

/-! ### Price normalizer from src/priceFetcher.js -/

/-- A JS number as observed at the price-normalizer boundary: either a
finite value (modelled exactly as a rational) or one of the IEEE special
values Infinity and NaN. -/
inductive JSNum where
  | num (v : ℚ)
  | inf
  | nan
deriving DecidableEq

/-- `2^96`, the fixed-point scale of `sqrtPriceX96`. -/
def Q96 : ℕ := 2 ^ 96

/-- `sqrtPriceX96ToPrice` from src/priceFetcher.js.  The input bigint is a
natural number; `none` models a `null`/`undefined` input.  The guard returns
0 for absent or zero inputs before any arithmetic; the main branch squares
the descaled square-root price and applies the decimal adjustment
`10^(token0Decimals - token1Decimals)` (float64 modelled as exact ℚ). -/
def sqrtPriceX96ToPrice (sqrtPriceX96 : Option ℕ)
    (token0Decimals token1Decimals : ℤ) : ℚ :=
  match sqrtPriceX96 with
  | none => 0
  | some 0 => 0
  | some n =>
    let sqrtPrice : ℚ := (n : ℚ) / (Q96 : ℚ)
    let price := sqrtPrice * sqrtPrice
    price * (10 : ℚ) ^ (token0Decimals - token1Decimals)

/-- `sqrtPriceX96ToInversePrice` from src/priceFetcher.js: literally
`1 / sqrtPriceX96ToPrice(...)`.  In IEEE float64 arithmetic `1 / 0`
evaluates to Infinity, modelled here by the explicit `JSNum.inf` case; for a
nonzero price the quotient is finite. -/
def sqrtPriceX96ToInversePrice (sqrtPriceX96 : Option ℕ)
    (token0Decimals token1Decimals : ℤ) : JSNum :=
  let price := sqrtPriceX96ToPrice sqrtPriceX96 token0Decimals token1Decimals
  if price = 0 then JSNum.inf else JSNum.num (1 / price)

/-! ### Error taxonomy and AIAgent from src/aiAgent.js -/

/-- `ERROR_CATEGORIES` (the JS values are the snake-case strings). -/
inductive ErrorCategory where
  | network
  | contract
  | price
  | liquidity
  | gas
  | slippage
  | configError
  | logic
  | unknown
deriving DecidableEq

/-- A JS `Error` as inspected by the agent: its message and optional
`code` property. -/
structure JsError where
  message : String
  code : Option String
deriving DecidableEq

/-- The part of the context object inspected by categorization
(`context.operation`). -/
structure ErrorContext where
  operation : Option String
deriving DecidableEq

/-- `AIAgent._categorizeError`: ordered first-match rules over the
lower-cased message, the `code` property (defaulted to the empty string)
and the context, with `unknown` as fallback. -/
def categorizeError (error : JsError) (context : ErrorContext) : ErrorCategory :=
  let message := jsToLower error.message
  let code := error.code.getD ""
  if code == "NETWORK_ERROR" || jsIncludes message "network" ||
      jsIncludes message "timeout" || jsIncludes message "connection" then
    .network
  else if jsIncludes message "contract" || jsIncludes message "revert" ||
      jsIncludes message "execution reverted" || code == "CALL_EXCEPTION" then
    .contract
  else if jsIncludes message "price" || jsIncludes message "sqrtprice" ||
      jsIncludes message "slot0" || context.operation == some "price_fetch" then
    .price
  else if jsIncludes message "liquidity" || jsIncludes message "insufficient" then
    .liquidity
  else if jsIncludes message "gas" || jsIncludes message "fee" ||
      code == "INSUFFICIENT_FUNDS" then
    .gas
  else if jsIncludes message "slippage" || jsIncludes message "price impact" ||
      jsIncludes message "too much" then
    .slippage
  else if jsIncludes message "config" || jsIncludes message "invalid address" ||
      jsIncludes message "unknown pair" then
    .configError
  else if jsIncludes message "cannot read" || jsIncludes message "undefined" ||
      jsIncludes message "null" || jsIncludes message "nan" then
    .logic
  else
    .unknown

/-- `AIAgent._assessSeverity`: the category-indexed severity table. -/
def assessSeverity (error : JsError) (context : ErrorContext) : ℕ :=
  match categorizeError error context with
  | .network => 3
  | .contract => 4
  | .price => 3
  | .liquidity => 4
  | .gas => 3
  | .slippage => 2
  | .configError => 5
  | .logic => 5
  | .unknown => 3

/-- The fields of a diagnosis produced by `AIAgent.analyzeError` that the
verified properties inspect.  The timestamp and the static advisory text
(root cause, recommendations, code changes) are category-indexed lookups of
fixed template records and are not modelled. -/
structure Diagnosis where
  errorMessage : String
  errorCode : Option String
  category : ErrorCategory
  severity : ℕ
  retryCount : ℕ
deriving DecidableEq

/-- One entry of `AIAgent.errorHistory` as pushed by `_recordError`. -/
structure HistoryEntry where
  category : ErrorCategory
  severity : ℕ
  resolved : Bool
deriving DecidableEq

/-- `AI_AGENT_CONFIG.errorHistoryLimit`. -/
def errorHistoryLimit : ℕ := 100

/-- The mutable state of an `AIAgent` instance. -/
structure AIAgentState where
  errorHistory : List HistoryEntry
  diagnosticResults : List Diagnosis
  totalAnalyses : ℕ
  successfulDiagnoses : ℕ
  recommendationsAccepted : ℕ
  recommendationsRejected : ℕ
deriving DecidableEq

/-- The state of a freshly constructed `AIAgent`. -/
def initAgentState : AIAgentState :=
  ⟨[], [], 0, 0, 0, 0⟩

/-- `AIAgent._recordError`: append to the rolling history, evicting the
oldest entry past `errorHistoryLimit`. -/
def recordError (st : AIAgentState) (d : Diagnosis) : AIAgentState :=
  let hist := st.errorHistory ++ [⟨d.category, d.severity, false⟩]
  { st with errorHistory := if errorHistoryLimit < hist.length then hist.tail else hist }

/-- `AIAgent.analyzeError`: increments `totalAnalyses` on entry, builds the
diagnosis, records it to the history, then unconditionally increments
`successfulDiagnoses` and appends to `diagnosticResults`.  Every step is
total, so the method completes for every input.  `retryCount` is the value
the caller merged into the context object. -/
def analyzeError (st : AIAgentState) (error : JsError) (context : ErrorContext)
    (retryCount : ℕ) : AIAgentState × Diagnosis :=
  let st1 := { st with totalAnalyses := st.totalAnalyses + 1 }
  let d : Diagnosis :=
    { errorMessage := error.message
      errorCode := error.code
      category := categorizeError error context
      severity := assessSeverity error context
      retryCount := retryCount }
  let st2 := recordError st1 d
  let st3 := { st2 with
    successfulDiagnoses := st2.successfulDiagnoses + 1
    diagnosticResults := st2.diagnosticResults ++ [d] }
  (st3, d)

/-- Run a sequence of `analyzeError` calls against an agent, keeping the
final state. -/
def runAnalyses (st : AIAgentState) (calls : List (JsError × ErrorContext × ℕ)) :
    AIAgentState :=
  calls.foldl (fun s c => (analyzeError s c.1 c.2.1 c.2.2).1) st

/-! ### SmartErrorHandler from src/errorHandler.js -/

/-- The fields of `ERROR_HANDLER_CONFIG` that drive `wrapAsync` (logging
flags and the authorization callback have no modelled effect). -/
structure HandlerConfig where
  useAIAgent : Bool
  maxRetries : ℕ
  retryDelayMs : ℚ
  exponentialBackoff : Bool
deriving DecidableEq

/-- The default `ERROR_HANDLER_CONFIG`. -/
def ERROR_HANDLER_CONFIG : HandlerConfig :=
  ⟨true, 3, 1000, true⟩

/-- `SmartErrorHandler._isRetryable`: the retryable categories are exactly
Network, Gas and Price. -/
def isRetryable (category : ErrorCategory) : Bool :=
  category == .network || category == .gas || category == .price

/-- `SmartErrorHandler._calculateDelay`: exponential backoff doubles the
base delay per completed retry, otherwise the delay is constant. -/
def calculateDelay (cfg : HandlerConfig) (retryCount : ℕ) : ℚ :=
  if cfg.exponentialBackoff then cfg.retryDelayMs * 2 ^ (retryCount - 1)
  else cfg.retryDelayMs

/-- The enhanced error thrown by `SmartErrorHandler._enhanceError`: it
carries the original error, the operation context, the attempt counter and
the last diagnosis of the agent (`diagnosticResults.slice(-1)[0]`, absent
when no analysis ran).  The `recommendations` field (the agent's
accumulated optimization list, untouched by `analyzeError`) is not
modelled. -/
structure EnhancedError where
  message : String
  originalError : JsError
  contextOperation : Option String
  retryCount : ℕ
  aiDiagnosis : Option Diagnosis
deriving DecidableEq

/-- Build the enhanced error from the handler state. -/
def enhanceError (error : JsError) (context : ErrorContext) (retryCount : ℕ)
    (agent : AIAgentState) : EnhancedError :=
  ⟨error.message, error, context.operation, retryCount,
    agent.diagnosticResults.getLast?⟩

/-- The observable trace of one `wrapAsync` invocation: the final result
(success value or thrown enhanced error), how many times the wrapped
function was invoked, the delays awaited between attempts in order, and the
final agent state. -/
structure WrapTrace (A : Type) where
  result : Except EnhancedError A
  attempts : ℕ
  delays : List ℚ
  agent : AIAgentState

/-- The `while (retries <= maxRetries)` loop of `SmartErrorHandler.wrapAsync`.
The wrapped call is modelled as `fn`, mapping the 0-based attempt index to
that attempt's outcome.  `fuel` equals `maxRetries + 1 - retries`, the
number of loop iterations still permitted, so the `fuel = 0` case is the
loop exit that throws the enhanced error.  On an attempt failure the retry
counter is incremented; with the AI agent enabled the error is analyzed and
a non-retryable category breaks out to the enhanced throw; otherwise, after
an await of `calculateDelay` (recorded only while `retries ≤ maxRetries`),
the loop continues.  `_logError` and `_applyImmediateFixes` touch no
modelled state. -/
def wrapLoop {A : Type} (cfg : HandlerConfig) (context : ErrorContext)
    (fn : ℕ → Except JsError A) :
    ℕ → ℕ → ℕ → AIAgentState → List ℚ → Option JsError → WrapTrace A
  | 0, retries, i, agent, delays, lastError =>
    ⟨.error (enhanceError (lastError.getD ⟨"", none⟩) context retries agent),
      i, delays, agent⟩
  | fuel + 1, retries, i, agent, delays, _ =>
    match fn i with
    | .ok v => ⟨.ok v, i + 1, delays, agent⟩
    | .error e =>
      let r := retries + 1
      if cfg.useAIAgent then
        let ad := analyzeError agent e context r
        if isRetryable ad.2.category then
          let delays' := if r ≤ cfg.maxRetries
            then delays ++ [calculateDelay cfg r] else delays
          wrapLoop cfg context fn fuel r (i + 1) ad.1 delays' (some e)
        else
          ⟨.error (enhanceError e context r ad.1), i + 1, delays, ad.1⟩
      else
        let delays' := if r ≤ cfg.maxRetries
          then delays ++ [calculateDelay cfg r] else delays
        wrapLoop cfg context fn fuel r (i + 1) agent delays' (some e)

/-- `SmartErrorHandler.wrapAsync` applied to one call of the wrapped
function: enter the retry loop with zero retries and the given agent
state. -/
def wrapAsync {A : Type} (cfg : HandlerConfig) (context : ErrorContext)
    (fn : ℕ → Except JsError A) (agent : AIAgentState) : WrapTrace A :=
  wrapLoop cfg context fn (cfg.maxRetries + 1) 0 0 agent [] none


/-! ## Helper lemmas -/

theorem analyzeError_snd (st : AIAgentState) (e : JsError) (c : ErrorContext) (r : ℕ) :
    (analyzeError st e c r).2
      = ⟨e.message, e.code, categorizeError e c, assessSeverity e c, r⟩ := rfl

theorem analyzeError_fst_diagnosticResults (st : AIAgentState) (e : JsError)
    (c : ErrorContext) (r : ℕ) :
    ((analyzeError st e c r).1).diagnosticResults
      = st.diagnosticResults
        ++ [⟨e.message, e.code, categorizeError e c, assessSeverity e c, r⟩] := rfl

theorem wrapLoop_zero (A : Type) (cfg : HandlerConfig) (ctx : ErrorContext)
    (fn : ℕ → Except JsError A) (r i : ℕ) (ag : AIAgentState) (ds : List ℚ)
    (le : Option JsError) :
    wrapLoop cfg ctx fn 0 r i ag ds le
      = ⟨.error (enhanceError (le.getD ⟨"", none⟩) ctx r ag), i, ds, ag⟩ := rfl

theorem wrapLoop_succ_ai_retry (A : Type) (cfg : HandlerConfig) (ctx : ErrorContext)
    (e : JsError) (hu : cfg.useAIAgent = true)
    (hret : isRetryable (categorizeError e ctx) = true)
    (fuel r i : ℕ) (ag : AIAgentState) (ds : List ℚ) (le : Option JsError) :
    wrapLoop cfg ctx (fun _ => (Except.error e : Except JsError A)) (fuel + 1) r i ag ds le
      = wrapLoop cfg ctx (fun _ => (Except.error e : Except JsError A)) fuel (r + 1)
          (i + 1) (analyzeError ag e ctx (r + 1)).1
          (if r + 1 ≤ cfg.maxRetries then ds ++ [calculateDelay cfg (r + 1)] else ds)
          (some e) := by
  rw [wrapLoop]
  simp [hu, hret, analyzeError_snd]

theorem wrapLoop_succ_ai_stop (A : Type) (cfg : HandlerConfig) (ctx : ErrorContext)
    (e : JsError) (hu : cfg.useAIAgent = true)
    (hret : isRetryable (categorizeError e ctx) = false)
    (fuel r i : ℕ) (ag : AIAgentState) (ds : List ℚ) (le : Option JsError) :
    wrapLoop cfg ctx (fun _ => (Except.error e : Except JsError A)) (fuel + 1) r i ag ds le
      = ⟨.error (enhanceError e ctx (r + 1) (analyzeError ag e ctx (r + 1)).1), i + 1,
          ds, (analyzeError ag e ctx (r + 1)).1⟩ := by
  rw [wrapLoop]
  simp [hu, hret, analyzeError_snd]

theorem wrapLoop_succ_noai (A : Type) (cfg : HandlerConfig) (ctx : ErrorContext)
    (e : JsError) (hu : cfg.useAIAgent = false)
    (fuel r i : ℕ) (ag : AIAgentState) (ds : List ℚ) (le : Option JsError) :
    wrapLoop cfg ctx (fun _ => (Except.error e : Except JsError A)) (fuel + 1) r i ag ds le
      = wrapLoop cfg ctx (fun _ => (Except.error e : Except JsError A)) fuel (r + 1)
          (i + 1) ag
          (if r + 1 ≤ cfg.maxRetries then ds ++ [calculateDelay cfg (r + 1)] else ds)
          (some e) := by
  rw [wrapLoop]
  simp [hu]

theorem wrapLoop_fail_attempts (A : Type) (cfg : HandlerConfig) (ctx : ErrorContext)
    (e : JsError)
    (hcont : cfg.useAIAgent = false ∨ isRetryable (categorizeError e ctx) = true) :
    ∀ (fuel retries i : ℕ) (agent : AIAgentState) (delays : List ℚ)
      (lastErr : Option JsError),
      (wrapLoop cfg ctx (fun _ => (Except.error e : Except JsError A)) fuel retries i
        agent delays lastErr).attempts = i + fuel := by
  intro fuel
  induction fuel with
  | zero => intro r i ag ds le; rw [wrapLoop_zero]; simp
  | succ n ih =>
    intro r i ag ds le
    cases hu : cfg.useAIAgent with
    | true =>
      have hret : isRetryable (categorizeError e ctx) = true := by
        rcases hcont with h | h
        · rw [hu] at h; cases h
        · exact h
      rw [wrapLoop_succ_ai_retry A cfg ctx e hu hret, ih]
      omega
    | false =>
      rw [wrapLoop_succ_noai A cfg ctx e hu, ih]
      omega

theorem wrapLoop_fail_delays (A : Type) (cfg : HandlerConfig) (ctx : ErrorContext)
    (e : JsError)
    (hcont : cfg.useAIAgent = false ∨ isRetryable (categorizeError e ctx) = true) :
    ∀ (fuel retries i : ℕ), fuel + retries = cfg.maxRetries + 1 →
      ∀ (agent : AIAgentState) (delays : List ℚ) (lastErr : Option JsError),
      (wrapLoop cfg ctx (fun _ => (Except.error e : Except JsError A)) fuel retries i
        agent delays lastErr).delays
        = delays ++ (List.range' (retries + 1) (fuel - 1)).map (calculateDelay cfg) := by
  intro fuel
  induction fuel with
  | zero => intro r i hinv ag ds le; rw [wrapLoop_zero]; simp
  | succ n ih =>
    intro r i hinv ag ds le
    have hstep : ∀ (ag2 : AIAgentState),
        (wrapLoop cfg ctx (fun _ => (Except.error e : Except JsError A)) n (r + 1)
          (i + 1) ag2
          (if r + 1 ≤ cfg.maxRetries then ds ++ [calculateDelay cfg (r + 1)] else ds)
          (some e)).delays
          = ds ++ (List.range' (r + 1) n).map (calculateDelay cfg) := by
      intro ag2
      rcases Nat.eq_zero_or_pos n with hn | hn
      · subst hn
        rw [if_neg (by omega), wrapLoop_zero]
        simp
      · obtain ⟨m, rfl⟩ : ∃ m, n = m + 1 := ⟨n - 1, by omega⟩
        rw [if_pos (by omega), ih (r + 1) (i + 1) (by omega)]
        simp [List.range'_succ]
    cases hu : cfg.useAIAgent with
    | true =>
      have hret : isRetryable (categorizeError e ctx) = true := by
        rcases hcont with h | h
        · rw [hu] at h; cases h
        · exact h
      rw [wrapLoop_succ_ai_retry A cfg ctx e hu hret, hstep]
      simp
    | false =>
      rw [wrapLoop_succ_noai A cfg ctx e hu, hstep]
      simp

theorem wrapLoop_fail_result_ai (A : Type) (cfg : HandlerConfig) (ctx : ErrorContext)
    (e : JsError) (hu : cfg.useAIAgent = true)
    (hret : isRetryable (categorizeError e ctx) = true) :
    ∀ (fuel retries i : ℕ) (agent : AIAgentState) (delays : List ℚ)
      (lastErr : Option JsError),
      (wrapLoop cfg ctx (fun _ => (Except.error e : Except JsError A)) (fuel + 1)
        retries i agent delays lastErr).result
        = Except.error ⟨e.message, e, ctx.operation, retries + fuel + 1,
            some ⟨e.message, e.code, categorizeError e ctx, assessSeverity e ctx,
              retries + fuel + 1⟩⟩ := by
  intro fuel
  induction fuel with
  | zero =>
    intro r i ag ds le
    rw [wrapLoop_succ_ai_retry A cfg ctx e hu hret, wrapLoop_zero]
    simp [enhanceError, analyzeError_fst_diagnosticResults, List.getLast?_concat]
  | succ m ih =>
    intro r i ag ds le
    rw [wrapLoop_succ_ai_retry A cfg ctx e hu hret, ih]
    have h1 : r + 1 + m + 1 = r + (m + 1) + 1 := by omega
    rw [h1]

theorem wrapLoop_fail_result_noai (A : Type) (cfg : HandlerConfig) (ctx : ErrorContext)
    (e : JsError) (hu : cfg.useAIAgent = false) :
    ∀ (fuel retries i : ℕ) (agent : AIAgentState) (delays : List ℚ)
      (lastErr : Option JsError),
      (wrapLoop cfg ctx (fun _ => (Except.error e : Except JsError A)) (fuel + 1)
        retries i agent delays lastErr).result
        = Except.error ⟨e.message, e, ctx.operation, retries + fuel + 1,
            agent.diagnosticResults.getLast?⟩
      ∧ (wrapLoop cfg ctx (fun _ => (Except.error e : Except JsError A)) (fuel + 1)
          retries i agent delays lastErr).agent = agent := by
  intro fuel
  induction fuel with
  | zero =>
    intro r i ag ds le
    rw [wrapLoop_succ_noai A cfg ctx e hu, wrapLoop_zero]
    simp [enhanceError]
  | succ m ih =>
    intro r i ag ds le
    rw [wrapLoop_succ_noai A cfg ctx e hu]
    have h2 := ih (r + 1) (i + 1) ag
      (if r + 1 ≤ cfg.maxRetries then ds ++ [calculateDelay cfg (r + 1)] else ds)
      (some e)
    rw [h2.1, h2.2]
    have h1 : r + 1 + m + 1 = r + (m + 1) + 1 := by omega
    rw [h1]
    exact ⟨rfl, rfl⟩

theorem runAnalyses_totalAnalyses (calls : List (JsError × ErrorContext × ℕ)) :
    ∀ st : AIAgentState,
      (runAnalyses st calls).totalAnalyses = st.totalAnalyses + calls.length := by
  induction calls with
  | nil => intro st; rfl
  | cons c cs ih =>
    intro st
    show (runAnalyses (analyzeError st c.1 c.2.1 c.2.2).1 cs).totalAnalyses
      = st.totalAnalyses + (cs.length + 1)
    rw [ih]
    show st.totalAnalyses + 1 + cs.length = st.totalAnalyses + (cs.length + 1)
    omega

theorem runAnalyses_successfulDiagnoses (calls : List (JsError × ErrorContext × ℕ)) :
    ∀ st : AIAgentState,
      (runAnalyses st calls).successfulDiagnoses
        = st.successfulDiagnoses + calls.length := by
  induction calls with
  | nil => intro st; rfl
  | cons c cs ih =>
    intro st
    show (runAnalyses (analyzeError st c.1 c.2.1 c.2.2).1 cs).successfulDiagnoses
      = st.successfulDiagnoses + (cs.length + 1)
    rw [ih]
    show st.successfulDiagnoses + 1 + cs.length = st.successfulDiagnoses + (cs.length + 1)
    omega

/-! ## Claim theorems -/

/-- Claim C1, counterexample.  For the quote set (source A at price 3000,
source B at price 3030), trade amount 1 and per-leg cost 0.01, the claim
asserts `isProfitableAfterGas = true`; the code reports `some false`: after
the default 0.5 percent per-leg slippage the gross profit is negative
(−0.15), so the net profit −0.17 is below the 1.0 minimum profit
threshold. -/
theorem analyzeArbitrage_3000_3030_unprofitable :
    (analyzeArbitrage [⟨"A", some 3000, none, none⟩, ⟨"B", some 3030, none, none⟩]
      1 (1/100)).isProfitableAfterGas = some false := by
  norm_num [analyzeArbitrage, validPrices, isTruthyStr, bestPair,
    determineArbitrageDirection, calculatePriceDifference, calculatePotentialProfit,
    calculateNetProfit, MIN_PROFIT_THRESHOLD_USD, SLIPPAGE_TOLERANCE_PERCENT,
    MIN_PRICE_DIFF_PERCENT, List.filterMap, List.foldl]
  simp

/-- Claim C1, amended.  For the quote set (A at 3000, B at 3030), trade
amount 1 and per-leg cost 0.01, `analyzeArbitrage` returns
`hasOpportunity = true`, direction buy from A and sell to B, a gross profit
of −0.15 (after the default 0.5 percent per-leg slippage), a net profit
equal to the gross profit minus 2 times 0.01, and
`isProfitableAfterGas = false` (the net profit −0.17 is below the 1.0
minimum profit threshold). -/
theorem analyzeArbitrage_3000_3030_report :
    (analyzeArbitrage [⟨"A", some 3000, none, none⟩, ⟨"B", some 3030, none, none⟩]
      1 (1/100)).hasOpportunity = true
    ∧ (analyzeArbitrage [⟨"A", some 3000, none, none⟩, ⟨"B", some 3030, none, none⟩]
      1 (1/100)).direction = some ⟨"A", 3000, "B", 3030⟩
    ∧ (analyzeArbitrage [⟨"A", some 3000, none, none⟩, ⟨"B", some 3030, none, none⟩]
      1 (1/100)).grossProfitUsd = some (-(3/20))
    ∧ (analyzeArbitrage [⟨"A", some 3000, none, none⟩, ⟨"B", some 3030, none, none⟩]
      1 (1/100)).netProfitUsd = some (-(3/20) - 2 * (1/100))
    ∧ (analyzeArbitrage [⟨"A", some 3000, none, none⟩, ⟨"B", some 3030, none, none⟩]
      1 (1/100)).isProfitableAfterGas = some false := by
  norm_num [analyzeArbitrage, validPrices, isTruthyStr, bestPair,
    determineArbitrageDirection, calculatePriceDifference, calculatePotentialProfit,
    calculateNetProfit, MIN_PROFIT_THRESHOLD_USD, SLIPPAGE_TOLERANCE_PERCENT,
    MIN_PRICE_DIFF_PERCENT, List.filterMap, List.foldl]
  simp

/-- Claim C2, counterexample.  For `rawSqrtPrice = 0` (base price
normalizes to 0) the reciprocal returned by `sqrtPriceX96ToInversePrice`
is the IEEE floating-point value Infinity produced by `1 / 0`
(`JSNum.inf` in the embedding), not a distinct "undefined" sentinel: the
Infinity value is exactly what later comparisons would consume. -/
theorem sqrtPriceX96ToInversePrice_zero_is_infinity :
    sqrtPriceX96ToInversePrice (some 0) 18 6 = JSNum.inf := by
  simp [sqrtPriceX96ToInversePrice, sqrtPriceX96ToPrice]

/-- Claim C2, amended.  For every input whose base-in-quote price
normalizes to 0, `sqrtPriceX96ToInversePrice` returns the floating-point
value Infinity (the result of `1 / 0`), which propagates to callers; no
explicit "undefined" sentinel distinct from Infinity is produced. -/
theorem sqrtPriceX96ToInversePrice_inf_of_price_zero (s : Option ℕ) (d0 d1 : ℤ)
    (h : sqrtPriceX96ToPrice s d0 d1 = 0) :
    sqrtPriceX96ToInversePrice s d0 d1 = JSNum.inf := by
  simp [sqrtPriceX96ToInversePrice, h]

/-- Witness for the amended claim C2 at `rawSqrtPrice = 0` with 18/18
decimals. -/
theorem sqrtPriceX96ToInversePrice_inf_witness :
    sqrtPriceX96ToPrice (some 0) 18 18 = 0
    ∧ sqrtPriceX96ToInversePrice (some 0) 18 18 = JSNum.inf :=
  ⟨rfl, sqrtPriceX96ToInversePrice_inf_of_price_zero (some 0) 18 18 rfl⟩

/-- Claim C3.  For a wrapped call that fails on every attempt with a
Network-classified error (AI analysis enabled, exponential backoff on,
positive base delay), `wrapAsync` makes `maxRetries + 1` attempts
(1 initial + `maxRetries` retries); the delay awaited before the n-th retry
(entry `n - 1` of the delay trace) is `retryDelayMs * 2 ^ (n - 1)`, so the
delays are strictly increasing; and after exhaustion it throws an enhanced
error carrying the original error, the operation context, the attempt
counter and the last (Network, severity 3) diagnosis. -/
theorem wrapAsync_network_exhaustion (A : Type) (cfg : HandlerConfig)
    (ctx : ErrorContext) (e : JsError) (agent : AIAgentState)
    (hu : cfg.useAIAgent = true) (hexp : cfg.exponentialBackoff = true)
    (hpos : 0 < cfg.retryDelayMs)
    (hcat : categorizeError e ctx = ErrorCategory.network) :
    (wrapAsync cfg ctx (fun _ => (Except.error e : Except JsError A)) agent).attempts
      = cfg.maxRetries + 1
    ∧ (wrapAsync cfg ctx (fun _ => (Except.error e : Except JsError A)) agent).delays
      = (List.range cfg.maxRetries).map (fun k => cfg.retryDelayMs * 2 ^ k)
    ∧ List.Pairwise (· < ·)
        (wrapAsync cfg ctx (fun _ => (Except.error e : Except JsError A)) agent).delays
    ∧ (wrapAsync cfg ctx (fun _ => (Except.error e : Except JsError A)) agent).result
      = Except.error ⟨e.message, e, ctx.operation, cfg.maxRetries + 1,
          some ⟨e.message, e.code, ErrorCategory.network, 3, cfg.maxRetries + 1⟩⟩ := by
  have hret : isRetryable (categorizeError e ctx) = true := by rw [hcat]; rfl
  have hsev : assessSeverity e ctx = 3 := by unfold assessSeverity; rw [hcat]
  have hdel :
      (wrapAsync cfg ctx (fun _ => (Except.error e : Except JsError A)) agent).delays
        = (List.range cfg.maxRetries).map (fun k => cfg.retryDelayMs * 2 ^ k) := by
    simp only [wrapAsync]
    rw [wrapLoop_fail_delays A cfg ctx e (Or.inr hret) (cfg.maxRetries + 1) 0 0
      (by omega) agent [] none]
    simp only [List.nil_append, Nat.add_sub_cancel, Nat.zero_add]
    rw [List.range'_eq_map_range, List.map_map]
    apply List.map_congr_left
    intro k hk
    simp [calculateDelay, hexp, Nat.add_sub_cancel_left]
  refine ⟨?_, hdel, ?_, ?_⟩
  · simp only [wrapAsync]
    rw [wrapLoop_fail_attempts A cfg ctx e (Or.inr hret)]
    omega
  · rw [hdel]
    refine List.Pairwise.map _ (fun a b hab => ?_) (List.pairwise_lt_range _)
    gcongr
    exact one_lt_two
  · simp only [wrapAsync]
    rw [wrapLoop_fail_result_ai A cfg ctx e hu hret]
    simp [hcat, hsev]

/-- Witness for claim C3: the default handler configuration (3 retries,
1000 ms base delay) on a permanently failing Network-classified call makes
4 attempts with delays 1000, 2000, 4000. -/
theorem wrapAsync_network_exhaustion_witness :
    (wrapAsync ERROR_HANDLER_CONFIG ⟨none⟩
        (fun _ => (Except.error ⟨"connection timeout", none⟩ : Except JsError Unit))
        initAgentState).attempts = 4
    ∧ (wrapAsync ERROR_HANDLER_CONFIG ⟨none⟩
        (fun _ => (Except.error ⟨"connection timeout", none⟩ : Except JsError Unit))
        initAgentState).delays = [1000, 2000, 4000]
    ∧ List.Pairwise (· < ·)
        (wrapAsync ERROR_HANDLER_CONFIG ⟨none⟩
          (fun _ => (Except.error ⟨"connection timeout", none⟩ : Except JsError Unit))
          initAgentState).delays
    ∧ (wrapAsync ERROR_HANDLER_CONFIG ⟨none⟩
        (fun _ => (Except.error ⟨"connection timeout", none⟩ : Except JsError Unit))
        initAgentState).result
      = Except.error ⟨"connection timeout", ⟨"connection timeout", none⟩, none, 4,
          some ⟨"connection timeout", none, ErrorCategory.network, 3, 4⟩⟩ := by
  have h := wrapAsync_network_exhaustion Unit ERROR_HANDLER_CONFIG ⟨none⟩
    ⟨"connection timeout", none⟩ initAgentState rfl rfl
    (by norm_num [ERROR_HANDLER_CONFIG]) (by decide)
  refine ⟨h.1, ?_, h.2.2.1, h.2.2.2⟩
  rw [h.2.1]
  norm_num [ERROR_HANDLER_CONFIG, List.range_succ]

/-- Claim C4.  The retryable categories are exactly Network, Gas and
Price; for a wrapped call (AI analysis enabled) whose failure is classified
into any non-retryable category, `wrapAsync` makes exactly one attempt,
awaits no delay, and throws the enhanced error immediately. -/
theorem retryable_set_and_immediate_stop (A : Type) (cfg : HandlerConfig)
    (ctx : ErrorContext) (e : JsError) (agent : AIAgentState)
    (hu : cfg.useAIAgent = true)
    (hnr : isRetryable (categorizeError e ctx) = false) :
    (isRetryable .network = true ∧ isRetryable .gas = true ∧ isRetryable .price = true
      ∧ isRetryable .contract = false ∧ isRetryable .liquidity = false
      ∧ isRetryable .slippage = false ∧ isRetryable .configError = false
      ∧ isRetryable .logic = false ∧ isRetryable .unknown = false)
    ∧ (wrapAsync cfg ctx (fun _ => (Except.error e : Except JsError A)) agent).attempts = 1
    ∧ (wrapAsync cfg ctx (fun _ => (Except.error e : Except JsError A)) agent).delays = []
    ∧ (wrapAsync cfg ctx (fun _ => (Except.error e : Except JsError A)) agent).result
      = Except.error ⟨e.message, e, ctx.operation, 1,
          some ⟨e.message, e.code, categorizeError e ctx, assessSeverity e ctx, 1⟩⟩ := by
  refine ⟨by decide, ?_, ?_, ?_⟩
  · simp only [wrapAsync]
    rw [wrapLoop_succ_ai_stop A cfg ctx e hu hnr]
  · simp only [wrapAsync]
    rw [wrapLoop_succ_ai_stop A cfg ctx e hu hnr]
  · simp only [wrapAsync]
    rw [wrapLoop_succ_ai_stop A cfg ctx e hu hnr]
    simp [enhanceError, analyzeError_fst_diagnosticResults, List.getLast?_concat]

/-- Witness for claim C4: a Configuration-classified failure ("invalid
address") under the default configuration is not retried at all. -/
theorem retryable_set_and_immediate_stop_witness :
    categorizeError ⟨"invalid address", none⟩ ⟨none⟩ = ErrorCategory.configError
    ∧ isRetryable (categorizeError ⟨"invalid address", none⟩ ⟨none⟩) = false
    ∧ (wrapAsync ERROR_HANDLER_CONFIG ⟨none⟩
        (fun _ => (Except.error ⟨"invalid address", none⟩ : Except JsError Unit))
        initAgentState).attempts = 1
    ∧ (wrapAsync ERROR_HANDLER_CONFIG ⟨none⟩
        (fun _ => (Except.error ⟨"invalid address", none⟩ : Except JsError Unit))
        initAgentState).delays = []
    ∧ (wrapAsync ERROR_HANDLER_CONFIG ⟨none⟩
        (fun _ => (Except.error ⟨"invalid address", none⟩ : Except JsError Unit))
        initAgentState).result
      = Except.error ⟨"invalid address", ⟨"invalid address", none⟩, none, 1,
          some ⟨"invalid address", none, ErrorCategory.configError, 5, 1⟩⟩ := by
  have h := retryable_set_and_immediate_stop Unit ERROR_HANDLER_CONFIG ⟨none⟩
    ⟨"invalid address", none⟩ initAgentState rfl (by decide)
  exact ⟨by decide, by decide, h.2.1, h.2.2.1, h.2.2.2⟩

/-- Claim C5.  Whenever fewer than 2 entries survive the validity filter,
`analyzeArbitrage` returns `hasOpportunity = false` together with the
diagnostic reason and the count of valid sources, populating no direction
or profitability fields; the function is total, so no exception is
raised. -/
theorem analyzeArbitrage_insufficient (l : List PriceData) (a g : ℚ)
    (h : (validPrices l).length < 2) :
    (analyzeArbitrage l a g).hasOpportunity = false
    ∧ (analyzeArbitrage l a g).reason = some "Insufficient valid price data from DEXes"
    ∧ (analyzeArbitrage l a g).validDexCount = some (validPrices l).length
    ∧ (analyzeArbitrage l a g).isProfitableAfterGas = none
    ∧ (analyzeArbitrage l a g).direction = none := by
  rcases hv : validPrices l with _ | ⟨p, _ | ⟨q, t⟩⟩
  · simp [analyzeArbitrage, hv, insufficientResult]
  · simp [analyzeArbitrage, hv, insufficientResult]
  · rw [hv] at h; simp at h; omega

/-- Witness for claim C5 at the outcome list from the test suite: one
valid quote and one errored source. -/
theorem analyzeArbitrage_insufficient_witness :
    ((validPrices [⟨"Uniswap V3", some 3000, none, some "1000000"⟩,
        ⟨"Aerodrome CL", none, some "Pool not found", none⟩]).length < 2)
    ∧ (analyzeArbitrage [⟨"Uniswap V3", some 3000, none, some "1000000"⟩,
        ⟨"Aerodrome CL", none, some "Pool not found", none⟩] 1 (1/100)).hasOpportunity = false
    ∧ (analyzeArbitrage [⟨"Uniswap V3", some 3000, none, some "1000000"⟩,
        ⟨"Aerodrome CL", none, some "Pool not found", none⟩] 1
          (1/100)).reason = some "Insufficient valid price data from DEXes"
    ∧ (analyzeArbitrage [⟨"Uniswap V3", some 3000, none, some "1000000"⟩,
        ⟨"Aerodrome CL", none, some "Pool not found", none⟩] 1 (1/100)).validDexCount = some 1 := by
  have h : (validPrices [⟨"Uniswap V3", some 3000, none, some "1000000"⟩,
      ⟨"Aerodrome CL", none, some "Pool not found", none⟩]).length < 2 := by
    norm_num [validPrices, isTruthyStr, List.filterMap]
  have h2 := analyzeArbitrage_insufficient
    [⟨"Uniswap V3", some 3000, none, some "1000000"⟩,
      ⟨"Aerodrome CL", none, some "Pool not found", none⟩] 1 (1/100) h
  refine ⟨h, h2.1, h2.2.1, ?_⟩
  rw [h2.2.2.1]
  norm_num [validPrices, isTruthyStr, List.filterMap]

/-- Claim C6.  For `rawSqrtPrice = 0` and for absent (null/undefined)
inputs, `sqrtPriceX96ToPrice` returns price 0 for all decimal values; the
guard returns before any arithmetic, and the function is total, so it never
throws and never produces NaN. -/
theorem sqrtPriceX96ToPrice_zero_input (token0Decimals token1Decimals : ℤ) :
    sqrtPriceX96ToPrice none token0Decimals token1Decimals = 0
    ∧ sqrtPriceX96ToPrice (some 0) token0Decimals token1Decimals = 0 :=
  ⟨rfl, rfl⟩

/-- Claim C7.  `calculatePriceDifference` is symmetric in its two
arguments, and returns 0 when either argument is 0. -/
theorem calculatePriceDifference_symm_and_zero (a b : ℚ) :
    calculatePriceDifference a b = calculatePriceDifference b a
    ∧ calculatePriceDifference 0 b = 0
    ∧ calculatePriceDifference a 0 = 0 := by
  refine ⟨?_, by simp [calculatePriceDifference], by simp [calculatePriceDifference]⟩
  unfold calculatePriceDifference
  by_cases h1 : a = 0 ∨ b = 0
  · rw [if_pos h1, if_pos (Or.symm h1)]
  · rw [if_neg h1, if_neg (fun h => h1 (Or.symm h)), abs_sub_comm, add_comm]

/-- Claim C8, counterexample.  The quote set (A at 3000, B at 3030, A at
3050) has three valid quotes from two distinct sources, and the spread
between the extreme prices exceeds the threshold, yet the minimum and
maximum prices both come from source A, so `analyzeArbitrage` takes the
same-DEX early return: `hasOpportunity = false` and no profitability
boolean is reported at all. -/
theorem analyzeArbitrage_sameDex_extremes :
    ((validPrices [⟨"A", some 3000, none, none⟩, ⟨"B", some 3030, none, none⟩,
        ⟨"A", some 3050, none, none⟩]).map VQuote.dex) = ["A", "B", "A"]
    ∧ MIN_PRICE_DIFF_PERCENT ≤ calculatePriceDifference 3000 3050
    ∧ (analyzeArbitrage [⟨"A", some 3000, none, none⟩, ⟨"B", some 3030, none, none⟩,
        ⟨"A", some 3050, none, none⟩] 1 (1/100)).hasOpportunity = false
    ∧ (analyzeArbitrage [⟨"A", some 3000, none, none⟩, ⟨"B", some 3030, none, none⟩,
        ⟨"A", some 3050, none, none⟩] 1 (1/100)).isProfitableAfterGas = none := by
  refine ⟨by norm_num [validPrices, isTruthyStr, List.filterMap],
    by norm_num [calculatePriceDifference, MIN_PRICE_DIFF_PERCENT], ?_, ?_⟩ <;>
  · norm_num [analyzeArbitrage, validPrices, isTruthyStr, bestPair,
      determineArbitrageDirection, calculatePriceDifference, calculatePotentialProfit,
      calculateNetProfit, MIN_PROFIT_THRESHOLD_USD, SLIPPAGE_TOLERANCE_PERCENT,
      MIN_PRICE_DIFF_PERCENT, List.filterMap, List.foldl]

/-- Claim C8, amended.  For every analyzed quote set with at least 2 valid
quotes whose minimum-price and maximum-price entries come from distinct
sources, the opportunity flag equals exactly the comparison of the reported
price difference against the threshold, the profitability flag is reported
as a distinct boolean equal to exactly the comparison of the reported net
profit against the minimum profit threshold, and the reported net profit is
the reported gross profit minus twice the per-leg cost.  (When the two
extremes fall on the same source the analysis instead returns the same-DEX
early result with `hasOpportunity = false` and no profitability flag.) -/
theorem analyzeArbitrage_flags (l : List PriceData) (a g : ℚ) (p0 p1 : VQuote)
    (rest : List VQuote) (hv : validPrices l = p0 :: p1 :: rest)
    (hdex : (bestPair p0 (p0 :: p1 :: rest)).1.dex ≠ (bestPair p0 (p0 :: p1 :: rest)).2.dex) :
    (analyzeArbitrage l a g).hasOpportunity
      = decide (MIN_PRICE_DIFF_PERCENT ≤ (analyzeArbitrage l a g).priceDiffPercent.getD 0)
    ∧ (analyzeArbitrage l a g).isProfitableAfterGas
      = some (decide (MIN_PROFIT_THRESHOLD_USD < (analyzeArbitrage l a g).netProfitUsd.getD 0))
    ∧ (analyzeArbitrage l a g).netProfitUsd
      = some ((analyzeArbitrage l a g).grossProfitUsd.getD 0 - g * 2) := by
  simp only [analyzeArbitrage, hv]
  rw [if_neg hdex]
  simp [calculateNetProfit, calculatePotentialProfit]

/-- Witness for the amended claim C8 at the quote set (A at 3000, B at
3030) with trade amount 2 and per-leg cost 0.01. -/
theorem analyzeArbitrage_flags_witness :
    validPrices [⟨"A", some 3000, none, none⟩, ⟨"B", some 3030, none, none⟩]
      = [⟨"A", 3000, none⟩, ⟨"B", 3030, none⟩]
    ∧ (bestPair ⟨"A", 3000, none⟩ [⟨"A", 3000, none⟩, ⟨"B", 3030, none⟩]).1.dex
      ≠ (bestPair ⟨"A", 3000, none⟩ [⟨"A", 3000, none⟩, ⟨"B", 3030, none⟩]).2.dex
    ∧ (analyzeArbitrage [⟨"A", some 3000, none, none⟩, ⟨"B", some 3030, none, none⟩]
        2 (1/100)).hasOpportunity
      = decide (MIN_PRICE_DIFF_PERCENT
          ≤ (analyzeArbitrage [⟨"A", some 3000, none, none⟩,
              ⟨"B", some 3030, none, none⟩] 2 (1/100)).priceDiffPercent.getD 0)
    ∧ (analyzeArbitrage [⟨"A", some 3000, none, none⟩, ⟨"B", some 3030, none, none⟩]
        2 (1/100)).isProfitableAfterGas
      = some (decide (MIN_PROFIT_THRESHOLD_USD
          < (analyzeArbitrage [⟨"A", some 3000, none, none⟩,
              ⟨"B", some 3030, none, none⟩] 2 (1/100)).netProfitUsd.getD 0))
    ∧ (analyzeArbitrage [⟨"A", some 3000, none, none⟩, ⟨"B", some 3030, none, none⟩]
        2 (1/100)).netProfitUsd
      = some ((analyzeArbitrage [⟨"A", some 3000, none, none⟩,
          ⟨"B", some 3030, none, none⟩] 2 (1/100)).grossProfitUsd.getD 0
            - (1/100) * 2) := by
  have hv : validPrices [⟨"A", some 3000, none, none⟩, ⟨"B", some 3030, none, none⟩]
      = [⟨"A", 3000, none⟩, ⟨"B", 3030, none⟩] := by
    norm_num [validPrices, isTruthyStr, List.filterMap]
  have hdex : (bestPair ⟨"A", 3000, none⟩ [⟨"A", 3000, none⟩, ⟨"B", 3030, none⟩]).1.dex
      ≠ (bestPair ⟨"A", 3000, none⟩ [⟨"A", 3000, none⟩, ⟨"B", 3030, none⟩]).2.dex := by
    norm_num [bestPair, List.foldl]
    decide
  have h := analyzeArbitrage_flags
    [⟨"A", some 3000, none, none⟩, ⟨"B", some 3030, none, none⟩] 2 (1/100)
    ⟨"A", 3000, none⟩ ⟨"B", 3030, none⟩ [] hv hdex
  exact ⟨hv, hdex, h.1, h.2.1, h.2.2⟩

/-- Claim C9.  When `useAIAgent` is false, the retryability check inside
`wrapAsync` is never reached, so a call failing on every attempt is retried
the full `maxRetries` times regardless of how the error would be classified
(`maxRetries + 1` attempts in total), the agent state is untouched, and the
final enhanced error carries whatever last diagnosis the agent already had
(none for a fresh agent). -/
theorem wrapAsync_no_ai_always_retries (A : Type) (cfg : HandlerConfig)
    (ctx : ErrorContext) (e : JsError) (agent : AIAgentState)
    (hu : cfg.useAIAgent = false) :
    (wrapAsync cfg ctx (fun _ => (Except.error e : Except JsError A)) agent).attempts
      = cfg.maxRetries + 1
    ∧ (wrapAsync cfg ctx (fun _ => (Except.error e : Except JsError A)) agent).result
      = Except.error ⟨e.message, e, ctx.operation, cfg.maxRetries + 1,
          agent.diagnosticResults.getLast?⟩
    ∧ (wrapAsync cfg ctx (fun _ => (Except.error e : Except JsError A)) agent).agent
      = agent := by
  have h := wrapLoop_fail_result_noai A cfg ctx e hu cfg.maxRetries 0 0 agent [] none
  refine ⟨?_, ?_, ?_⟩
  · simp only [wrapAsync]
    rw [wrapLoop_fail_attempts A cfg ctx e (Or.inl hu)]
    omega
  · simp only [wrapAsync]
    rw [h.1]
    simp
  · simp only [wrapAsync]
    rw [h.2]

/-- Witness for claim C9: with the AI agent disabled, even a
Configuration-classified failure ("invalid address detected") is retried 3
times (4 attempts). -/
theorem wrapAsync_no_ai_always_retries_witness :
    categorizeError ⟨"invalid address detected", none⟩ ⟨none⟩ = ErrorCategory.configError
    ∧ (wrapAsync ⟨false, 3, 1000, true⟩ ⟨none⟩
        (fun _ => (Except.error ⟨"invalid address detected", none⟩ : Except JsError Unit))
        initAgentState).attempts = 4
    ∧ (wrapAsync ⟨false, 3, 1000, true⟩ ⟨none⟩
        (fun _ => (Except.error ⟨"invalid address detected", none⟩ : Except JsError Unit))
        initAgentState).result
      = Except.error ⟨"invalid address detected", ⟨"invalid address detected", none⟩,
          none, 4, none⟩
    ∧ (wrapAsync ⟨false, 3, 1000, true⟩ ⟨none⟩
        (fun _ => (Except.error ⟨"invalid address detected", none⟩ : Except JsError Unit))
        initAgentState).agent = initAgentState := by
  have h := wrapAsync_no_ai_always_retries Unit ⟨false, 3, 1000, true⟩ ⟨none⟩
    ⟨"invalid address detected", none⟩ initAgentState rfl
  exact ⟨by decide, h.1, h.2.1, h.2.2⟩

/-- Claim C10.  After every sequence of `analyzeError` calls on a fresh
agent, `successfulDiagnoses` equals `totalAnalyses` (both counters are
incremented unconditionally on every call, and the total method completes
for every input), so the reported diagnosis success rate is always 100
percent. -/
theorem agent_success_rate_always_full (calls : List (JsError × ErrorContext × ℕ)) :
    (runAnalyses initAgentState calls).successfulDiagnoses
      = (runAnalyses initAgentState calls).totalAnalyses
    ∧ (runAnalyses initAgentState calls).totalAnalyses = calls.length := by
  rw [runAnalyses_totalAnalyses calls initAgentState,
    runAnalyses_successfulDiagnoses calls initAgentState]
  simp [initAgentState]

end DexTrader
